import Mathlib

/-!
Verification of the transport-nearby repository.

The development shallowly embeds the Python sources:
  * nearby-create/nearby-create-database.py  (import + merge reconciliation)
  * nearby-python/nearby-python-serve.py     (proximity query engine)

SQLite tables become Lean lists of records; a SQL `WHERE id IN (...)`
clause over a parameter list becomes list membership (SQLite documents the
empty value list as legal, evaluating to false, which list membership on
the empty list models exactly).  Python string operations (`str.title`,
`str.replace`, `str.split`, slicing) are implemented on `List Char`
following their documented semantics.  The floating-point trigonometry of
the query engine is modelled over the reals.
-/

/-- Python-style truncation `int(q)` on rationals (truncation toward zero). -/
def pyInt (q : ℚ) : ℤ := if q < 0 then -((-q).floor) else q.floor

/-- Model of Python `str.title()` on the character list: an alphabetic
character is uppercased when the previous character is not alphabetic and
lowercased otherwise (character classes modelled by `Char.isAlpha`). -/
def pyTitleAux : Bool → List Char → List Char
  | _, [] => []
  | prevAlpha, c :: rest =>
    (if c.isAlpha then (if prevAlpha then c.toLower else c.toUpper) else c)
      :: pyTitleAux c.isAlpha rest

/-- Python `str.title()`. -/
def pyTitle (s : String) : String := ⟨pyTitleAux false s.data⟩

/-- Model of Python `str.replace(old, new)`: replace non-overlapping
occurrences left to right.  The `fuel` argument is an upper bound on the
number of scanning steps (each step consumes at least one character of the
remaining input, so `s.length` fuel is always enough); it only makes the
recursion structural. -/
def pyReplaceAux (old new : List Char) : Nat → List Char → List Char
  | 0, s => s
  | _ + 1, [] => []
  | fuel + 1, c :: rest =>
    if old ≠ [] ∧ old.isPrefixOf (c :: rest) then
      new ++ pyReplaceAux old new fuel (rest.drop (old.length - 1))
    else
      c :: pyReplaceAux old new fuel rest

/-- Python `s.replace(old, new)`. -/
def pyReplace (s old new : String) : String :=
  ⟨pyReplaceAux old.data new.data s.data.length s.data⟩

/-- Substring occurrence test (`pat in s` in Python): `pat` occurs as a
contiguous run of `s`. -/
def containsSub (pat : List Char) : List Char → Bool
  | [] => pat.isEmpty
  | c :: rest => pat.isPrefixOf (c :: rest) || containsSub pat rest

/-- Python `s.split(",")` on character lists. -/
def splitComma : List Char → List (List Char)
  | [] => [[]]
  | c :: rest =>
    match splitComma rest with
    | [] => [[c]]
    | g :: gs => if c = ',' then [] :: g :: gs else (c :: g) :: gs

/-- Python slice `s[1:-1]`: drop the first and the last character. -/
def pyStripEnds (l : List Char) : List Char := (l.drop 1).dropLast

/-- Model of a SQL `column LIKE 'pre%'` filter with a plain prefix pattern
(identifiers in the store are built with the upper-case feed tags, so the
prefix test is exact). -/
def likeStarts (pre s : String) : Bool := pre.data.isPrefixOf s.data

/- ---------------------------------------------------------------------
   Constants from nearby-create-database.py
--------------------------------------------------------------------- -/

/-- Fields to prefix with the base_id when importing GTFS data. -/
def FIELD_IDS : List String :=
  ["trip_id", "stop_id", "route_id", "service_id", "cycle_id"]

def MRN_FAR_EAST_lat : ℚ := 49.48682
def MRN_FAR_EAST_lon : ℚ := 0.77446
def MRN_FAR_NORTH_lat : ℚ := 49.54676
def MRN_FAR_NORTH_lon : ℚ := 0.85565
def MRN_FAR_WEST_lat : ℚ := 49.37555
def MRN_FAR_WEST_lon : ℚ := 1.28984
def MRN_FAR_SOUTH_lat : ℚ := 49.25066
def MRN_FAR_SOUTH_lon : ℚ := 1.00526

def MAX_LATITUDE : ℚ := max MRN_FAR_NORTH_lat MRN_FAR_SOUTH_lat
def MIN_LATITUDE : ℚ := min MRN_FAR_NORTH_lat MRN_FAR_SOUTH_lat
def MAX_LONGITUDE : ℚ := max MRN_FAR_EAST_lon MRN_FAR_WEST_lon
def MIN_LONGITUDE : ℚ := min MRN_FAR_EAST_lon MRN_FAR_WEST_lon

/- ---------------------------------------------------------------------
   FeedNamespacer (import_table) and GeographicFilter (import_gtfs_data)
--------------------------------------------------------------------- -/

/-- The per-field transformation of `import_table`: an identifier field is
prefixed with the feed's base id, any other field passes through.  (The
drop-set pruning removes fields; it does not alter values.) -/
def namespace_field (base_id key value : String) : String :=
  if FIELD_IDS.contains key then base_id ++ value else value

/-- The stop filter of `import_gtfs_data`: a stop is skipped when its
latitude or longitude falls outside the bounding box (the two `continue`
branches); coordinates modelled as rationals. -/
def stop_accepted (stop_lat stop_lon : ℚ) : Bool :=
  if stop_lat < MIN_LATITUDE ∨ stop_lat > MAX_LATITUDE then false
  else if stop_lon < MIN_LONGITUDE ∨ stop_lon > MAX_LONGITUDE then false
  else true

/- ---------------------------------------------------------------------
   Cycle-facility coordinate parsing (derive_cycle_latitude / longitude)
--------------------------------------------------------------------- -/

/-- Source `derive_cycle_latitude`: `float(coordonneesxy[1:-1].split(",")[1])`.
The numeric `float()` conversion is modelled as the selected numeral text;
`none` models the `IndexError` raised when the component is missing. -/
def derive_cycle_latitude (coordonneesxy : String) : Option String :=
  ((splitComma (pyStripEnds coordonneesxy.data)).get? 1).map (⟨·⟩)

/-- Source `derive_cycle_longitude`: `float(coordonneesxy[1:-1].split(",")[0])`. -/
def derive_cycle_longitude (coordonneesxy : String) : Option String :=
  ((splitComma (pyStripEnds coordonneesxy.data)).get? 0).map (⟨·⟩)

/- ---------------------------------------------------------------------
   NameNormalizer (normalize_name)
--------------------------------------------------------------------- -/

/-- Source `normalize_name`: title-case the name, then apply the ordered
correction list sequentially, each replacement scanning the already
partially corrected string.  The correction list is the external
`CORRECTIONS` table loaded at startup, passed here as a parameter. -/
def normalize_name (corrections : List (String × String)) (name : String) : String :=
  corrections.foldl (fun n bg => pyReplace n bg.1 bg.2) (pyTitle name)

/- ---------------------------------------------------------------------
   The relational store and the MergeReconciler deletion steps
--------------------------------------------------------------------- -/

structure StopRow where
  stop_id : String
  stop_name : String
  stop_lat : ℚ
  stop_lon : ℚ
  deriving DecidableEq

structure RouteRow where
  route_id : String
  route_short_name : String
  route_long_name : String
  deriving DecidableEq

structure TripRow where
  trip_id : String
  route_id : String
  service_id : String
  deriving DecidableEq

structure StopTimeRow where
  trip_id : String
  stop_id : String
  deriving DecidableEq

structure CacheRow where
  stop_id : String
  route_id : String
  school : Bool
  deriving DecidableEq

structure DB where
  stops : List StopRow
  routes : List RouteRow
  trips : List TripRow
  stop_times : List StopTimeRow
  cache_stop_routes : List CacheRow
  deriving DecidableEq

/-- The stop ids `remove_trips` collects: stop ids of stop_times whose
trip id is in the removal set (`SELECT stop_id FROM stop_times WHERE
trip_id IN (...)`). -/
def remove_trips_stop_ids (db : DB) (trip_ids : List String) : List String :=
  (db.stop_times.filter (fun st => trip_ids.contains st.trip_id)).map (·.stop_id)

/-- The route ids `remove_trips` collects: route ids of trips in the
removal set (`SELECT route_id FROM trips WHERE trip_id IN (...)`). -/
def remove_trips_route_ids (db : DB) (trip_ids : List String) : List String :=
  (db.trips.filter (fun t => trip_ids.contains t.trip_id)).map (·.route_id)

/-- Source `remove_trips`: the id sets are selected first, then the trips are
deleted, then the collected stops, their cache rows, and the collected
routes.  stop_times are not touched by this procedure. -/
def remove_trips (db : DB) (trip_ids : List String) : DB :=
  let stop_ids := remove_trips_stop_ids db trip_ids
  let route_ids := remove_trips_route_ids db trip_ids
  { db with
    trips := db.trips.filter (fun t => !trip_ids.contains t.trip_id)
    stops := db.stops.filter (fun s => !stop_ids.contains s.stop_id)
    cache_stop_routes :=
      db.cache_stop_routes.filter (fun c => !stop_ids.contains c.stop_id)
    routes := db.routes.filter (fun r => !route_ids.contains r.route_id) }

/-- The duplicate-form list of `remove_atoumod_duplicates`: for every
Réseau Astuce route, its long name with the `<>` marker removed, and with
the marker replaced by a slash. -/
def astuce_dup_names (db : DB) : List String :=
  (db.routes.filter (fun r => likeStarts "AST-" r.route_id)).flatMap
    (fun r => [pyReplace r.route_long_name "<>" "",
               pyReplace r.route_long_name "<>" "/"])

/-- The AtouMod route ids `remove_atoumod_duplicates` deletes: AtouMod
routes whose long name is in the duplicate-form list. -/
def atoumod_duplicate_ids (db : DB) : List String :=
  (db.routes.filter (fun r =>
      (astuce_dup_names db).contains r.route_long_name
        && likeStarts "ATM-" r.route_id)).map (·.route_id)

/-- Source `remove_atoumod_duplicates`: delete the trips of the duplicate routes,
the routes themselves, and their cache rows. -/
def remove_atoumod_duplicates (db : DB) : DB :=
  let route_ids := atoumod_duplicate_ids db
  { db with
    trips := db.trips.filter (fun t => !route_ids.contains t.route_id)
    routes := db.routes.filter (fun r => !route_ids.contains r.route_id)
    cache_stop_routes :=
      db.cache_stop_routes.filter (fun c => !route_ids.contains c.route_id) }

/-- The orphaned stop ids of `remove_orphaned_stop_times`: stop ids of
stop_times whose LEFT JOIN against stops finds no row. -/
def orphaned_stop_time_ids (db : DB) : List String :=
  (db.stop_times.filter (fun st =>
      !db.stops.any (fun s => s.stop_id == st.stop_id))).map (·.stop_id)

/-- Source `remove_orphaned_stop_times`. -/
def remove_orphaned_stop_times (db : DB) : DB :=
  let stop_ids := orphaned_stop_time_ids db
  { db with
    stop_times := db.stop_times.filter (fun st => !stop_ids.contains st.stop_id) }

/-- The orphaned trip ids of `remove_orphaned_trips`: trips with no
stop_times. -/
def orphaned_trip_ids (db : DB) : List String :=
  (db.trips.filter (fun t =>
      !db.stop_times.any (fun st => st.trip_id == t.trip_id))).map (·.trip_id)

/-- Source `remove_orphaned_trips`. -/
def remove_orphaned_trips (db : DB) : DB :=
  let trip_ids := orphaned_trip_ids db
  { db with
    trips := db.trips.filter (fun t => !trip_ids.contains t.trip_id) }

/-- The orphaned route ids of `remove_orphaned_routes`: routes with no
trips. -/
def orphaned_route_ids (db : DB) : List String :=
  (db.routes.filter (fun r =>
      !db.trips.any (fun t => t.route_id == r.route_id))).map (·.route_id)

/-- Source `remove_orphaned_routes`. -/
def remove_orphaned_routes (db : DB) : DB :=
  let route_ids := orphaned_route_ids db
  { db with
    routes := db.routes.filter (fun r => !route_ids.contains r.route_id) }

/-- The orphan-sweep tail of the reconciliation pipeline, in pipeline
order: stop_times, then trips, then routes. -/
def orphan_sweep (db : DB) : DB :=
  remove_orphaned_routes (remove_orphaned_trips (remove_orphaned_stop_times db))

/- ---------------------------------------------------------------------
   The transit query post-processing loop (prepare_stations, serve.py)
--------------------------------------------------------------------- -/

/-- One candidate row of `find_stations`: the SQL result row fields the
loop reads.  `distance` is the haversine distance computed by the query,
modelled as an already evaluated rational. -/
structure StationRow where
  id : String
  stop_name : String
  route_short_name : String
  route_long_name : String
  school : Bool
  distance : ℚ
  deriving DecidableEq

structure RoutePoint where
  name : String
  long_name : String
  school : Bool
  type : String
  deriving DecidableEq

structure NearGroup where
  points : List RoutePoint
  distance_min : ℤ
  distance_max : ℤ
  deriving DecidableEq

/-- The loop state: the insertion-ordered `near_points` dict and the
global `used` set (modelled as an insertion-ordered list). -/
structure PrepState where
  near_points : List (String × NearGroup)
  used : List (String × Bool)
  deriving DecidableEq

/-- Update the value stored under a key of the association list. -/
def updateAssoc (l : List (String × NearGroup)) (key : String)
    (f : NearGroup → NearGroup) : List (String × NearGroup) :=
  match l with
  | [] => []
  | (k, v) :: rest =>
    if k = key then (k, f v) :: rest else (k, v) :: updateAssoc rest key f

/-- One iteration of the `prepare_stations` loop body. -/
def prepare_step (st : PrepState) (row : StationRow) : PrepState :=
  if (row.route_short_name, row.school) ∈ st.used then st
  else if row.school ∧ (row.route_short_name, false) ∈ st.used then st
  else
    let d := pyInt row.distance
    let np0 :=
      if st.near_points.lookup row.stop_name = none then
        st.near_points ++ [(row.stop_name, ⟨[], d, d⟩)]
      else st.near_points
    let np1 := updateAssoc np0 row.stop_name (fun g =>
      { g with
        distance_min := min g.distance_min d
        distance_max := max g.distance_max d })
    let np2 := updateAssoc np1 row.stop_name (fun g =>
      { g with
        points := g.points ++
          [⟨row.route_short_name, row.route_long_name, row.school,
            if likeStarts "ATM-" row.id then "atoumod" else "astuce"⟩] })
    ⟨np2, st.used ++ [(row.route_short_name, row.school)]⟩

/-- Source `prepare_stations` applied to the ordered candidate rows returned by
`find_stations`. -/
def prepare_stations (rows : List StationRow) : List (String × NearGroup) :=
  (rows.foldl prepare_step ⟨[], []⟩).near_points

/- ---------------------------------------------------------------------
   Geometry of the query engine (serve.py), modelled over the reals
--------------------------------------------------------------------- -/

def EARTH_DIAMETER : ℝ := 12742000

/-- Python `math.radians`. -/
noncomputable def radiansR (x : ℝ) : ℝ := x * (Real.pi / 180)

/-- Source `gps_distance` (haversine on a sphere of diameter `EARTH_DIAMETER`);
arguments already in radians. -/
noncomputable def gps_distance (lat1 lon1 lat2 lon2 : ℝ) : ℝ :=
  EARTH_DIAMETER * Real.arcsin (Real.sqrt
    (Real.sin ((lat2 - lat1) / 2) ^ 2 +
      Real.cos lat1 * Real.cos lat2 * Real.sin ((lon2 - lon1) / 2) ^ 2))

/-- Source `sin_angle = sin(radians(45/2))` of `compare_positions`. -/
noncomputable def sin_angle : ℝ := Real.sin (radiansR (45 / 2))

/-- Source `lat_angle` of `compare_positions`; arguments already in radians. -/
noncomputable def lat_angle (lat1 lon1 lat2 lon2 : ℝ) : ℝ :=
  Real.arcsin (lat2 - lat1) * EARTH_DIAMETER / gps_distance lat1 lon1 lat2 lon2

/-- Source `lon_angle` of `compare_positions`; arguments already in radians. -/
noncomputable def lon_angle (lat1 lon1 lat2 lon2 : ℝ) : ℝ :=
  Real.arcsin (lon2 - lon1) * EARTH_DIAMETER / gps_distance lat1 lon1 lat2 lon2

/-- The compass label built by `compare_positions` once the 5 m test has
failed: the latitude label concatenated with the longitude label;
arguments already in radians. -/
noncomputable def direction_label (lat1 lon1 lat2 lon2 : ℝ) : String :=
  (if lat_angle lat1 lon1 lat2 lon2 > 0 ∧
      lat_angle lat1 lon1 lat2 lon2 > sin_angle then "N"
   else if lat_angle lat1 lon1 lat2 lon2 < 0 ∧
      lat_angle lat1 lon1 lat2 lon2 < -sin_angle then "S"
   else "") ++
  (if lon_angle lat1 lon1 lat2 lon2 > 0 ∧
      lon_angle lat1 lon1 lat2 lon2 > sin_angle then "E"
   else if lon_angle lat1 lon1 lat2 lon2 < 0 ∧
      lon_angle lat1 lon1 lat2 lon2 < -sin_angle then "W"
   else "")

/-- Python `int()` truncation on a real. -/
noncomputable def pyIntR (x : ℝ) : ℤ :=
  if x < 0 then -(Int.floor (-x)) else Int.floor x

/-- Source `compare_positions` (serve.py): degree inputs are converted to
radians, the distance computed, and either the plain 'here' result or the
compass label returned. -/
noncomputable def compare_positions (lat1 lon1 lat2 lon2 : ℝ) : ℤ × String :=
  let l1 := radiansR lat1
  let o1 := radiansR lon1
  let l2 := radiansR lat2
  let o2 := radiansR lon2
  let distance := gps_distance l1 o1 l2 o2
  if distance < 5 then (pyIntR distance, "")
  else (pyIntR distance, direction_label l1 o1 l2 o2)

/- ---------------------------------------------------------------------
   Helper lemmas
--------------------------------------------------------------------- -/

lemma filter_not_contains_nil {α : Type} (p : α → String) (l : List α) :
    l.filter (fun x => !(List.contains ([] : List String) (p x))) = l :=
  List.filter_eq_self.mpr (fun _ _ => rfl)

lemma filter_contains_nil {α : Type} (p : α → String) (l : List α) :
    l.filter (fun x => List.contains ([] : List String) (p x)) = [] := by
  induction l with
  | nil => rfl
  | cons a t ih => simp [List.filter_cons, ih]

/- ---------------------------------------------------------------------
   C1: empty identifier sets
--------------------------------------------------------------------- -/

/-- C1: every cascading-delete step of the reconciler, run over an empty
identifier set, leaves the store unchanged (the empty `IN ()` value list
is legal SQLite and selects nothing, which the list-membership model
reflects): `remove_trips` with an empty trip-id list is the identity, and
each of `remove_atoumod_duplicates` and the three orphan sweeps is the
identity whenever its computed identifier set is empty. -/
theorem empty_identifier_set_no_op (db : DB) :
    remove_trips db [] = db
    ∧ (atoumod_duplicate_ids db = [] → remove_atoumod_duplicates db = db)
    ∧ (orphaned_stop_time_ids db = [] → remove_orphaned_stop_times db = db)
    ∧ (orphaned_trip_ids db = [] → remove_orphaned_trips db = db)
    ∧ (orphaned_route_ids db = [] → remove_orphaned_routes db = db) := by
  refine ⟨?_, ?_, ?_, ?_, ?_⟩
  · unfold remove_trips remove_trips_stop_ids remove_trips_route_ids
    cases db with
    | mk s r t st c =>
      simp only [filter_contains_nil, List.map_nil, filter_not_contains_nil]
  · intro h
    unfold remove_atoumod_duplicates
    rw [h]
    cases db with
    | mk s r t st c => simp only [filter_not_contains_nil]
  · intro h
    unfold remove_orphaned_stop_times
    rw [h]
    cases db with
    | mk s r t st c => simp only [filter_not_contains_nil]
  · intro h
    unfold remove_orphaned_trips
    rw [h]
    cases db with
    | mk s r t st c => simp only [filter_not_contains_nil]
  · intro h
    unfold remove_orphaned_routes
    rw [h]
    cases db with
    | mk s r t st c => simp only [filter_not_contains_nil]

/-- C1 witness: the conditioned clauses of `empty_identifier_set_no_op`
instantiated at a concrete store whose computed identifier sets are all
empty. -/
theorem empty_identifier_set_no_op_witness :
    atoumod_duplicate_ids ⟨[], [], [], [], []⟩ = []
    ∧ remove_atoumod_duplicates ⟨[], [], [], [], []⟩ = ⟨[], [], [], [], []⟩
    ∧ remove_orphaned_stop_times ⟨[], [], [], [], []⟩ = ⟨[], [], [], [], []⟩
    ∧ remove_orphaned_trips ⟨[], [], [], [], []⟩ = ⟨[], [], [], [], []⟩
    ∧ remove_orphaned_routes ⟨[], [], [], [], []⟩ = ⟨[], [], [], [], []⟩ :=
  ⟨rfl,
   (empty_identifier_set_no_op ⟨[], [], [], [], []⟩).2.1 rfl,
   (empty_identifier_set_no_op ⟨[], [], [], [], []⟩).2.2.1 rfl,
   (empty_identifier_set_no_op ⟨[], [], [], [], []⟩).2.2.2.1 rfl,
   (empty_identifier_set_no_op ⟨[], [], [], [], []⟩).2.2.2.2 rfl⟩

/- ---------------------------------------------------------------------
   C5: geographic filter
--------------------------------------------------------------------- -/

/-- C5: the stop filter of `import_gtfs_data` accepts a record exactly
when its latitude lies in [MIN_LATITUDE, MAX_LATITUDE] and its longitude
in [MIN_LONGITUDE, MAX_LONGITUDE]; in particular the boundary values
themselves are accepted (inclusive bounds). -/
theorem geographic_filter_inclusive :
    (∀ lat lon : ℚ, stop_accepted lat lon = true ↔
      (MIN_LATITUDE ≤ lat ∧ lat ≤ MAX_LATITUDE ∧
       MIN_LONGITUDE ≤ lon ∧ lon ≤ MAX_LONGITUDE))
    ∧ stop_accepted MIN_LATITUDE MIN_LONGITUDE = true
    ∧ stop_accepted MAX_LATITUDE MAX_LONGITUDE = true := by
  have hmain : ∀ lat lon : ℚ, stop_accepted lat lon = true ↔
      (MIN_LATITUDE ≤ lat ∧ lat ≤ MAX_LATITUDE ∧
       MIN_LONGITUDE ≤ lon ∧ lon ≤ MAX_LONGITUDE) := by
    intro lat lon
    unfold stop_accepted
    split_ifs with h1 h2
    · simp only [Bool.false_eq_true, false_iff]
      rintro ⟨a, b, c, d⟩
      rcases h1 with h | h <;> linarith
    · simp only [Bool.false_eq_true, false_iff]
      rintro ⟨a, b, c, d⟩
      rcases h2 with h | h <;> linarith
    · push_neg at h1 h2
      exact iff_of_true rfl ⟨h1.1, h1.2, h2.1, h2.2⟩
  have hlat : MIN_LATITUDE ≤ MAX_LATITUDE := min_le_max
  have hlon : MIN_LONGITUDE ≤ MAX_LONGITUDE := min_le_max
  exact ⟨hmain,
    (hmain _ _).mpr ⟨le_refl _, hlat, le_refl _, hlon⟩,
    (hmain _ _).mpr ⟨hlat, le_refl _, hlon, le_refl _⟩⟩

/- ---------------------------------------------------------------------
   C6: cycle-facility coordinate component order
--------------------------------------------------------------------- -/

/-- C6 counterexample: on a "(latitude,longitude)"-formatted field — the
format the function's own docstring documents — `derive_cycle_latitude`
selects the SECOND component, not the first, and `derive_cycle_longitude`
selects the first. -/
theorem derive_cycle_latitude_takes_second_component :
    derive_cycle_latitude "(49.4,1.1)" = some "1.1"
    ∧ derive_cycle_latitude "(49.4,1.1)" ≠ some "49.4"
    ∧ derive_cycle_longitude "(49.4,1.1)" = some "49.4" := by
  refine ⟨?_, ?_, ?_⟩ <;> decide

lemma splitComma_no_comma (l : List Char) (h : (',' : Char) ∉ l) :
    splitComma l = [l] := by
  induction l with
  | nil => rfl
  | cons c rest ih =>
    have hc : c ≠ ',' := fun e => h (e ▸ List.mem_cons_self c rest)
    have hr : (',' : Char) ∉ rest := fun e => h (List.mem_cons_of_mem c e)
    simp [splitComma, ih hr, hc]

lemma splitComma_append (a b : List Char) (ha : (',' : Char) ∉ a)
    (hb : (',' : Char) ∉ b) : splitComma (a ++ ',' :: b) = [a, b] := by
  induction a with
  | nil => simp [splitComma, splitComma_no_comma b hb]
  | cons c a' ih =>
    have hc : c ≠ ',' := fun e => ha (e ▸ List.mem_cons_self c a')
    have ha' : (',' : Char) ∉ a' := fun e => ha (List.mem_cons_of_mem c e)
    simp [splitComma, ih ha', hc]

/-- C6 amended: the facility latitude is parsed from the SECOND component
and the longitude from the FIRST component of the combined coordinate
field (the field is named `coordonneesxy`, i.e. (x, y) = (lon, lat)
order, although the docstrings describe it as '(latitude, longitude)'). -/
theorem derive_cycle_components (a b : String)
    (ha : (',' : Char) ∉ a.data) (hb : (',' : Char) ∉ b.data) :
    derive_cycle_latitude ("(" ++ a ++ "," ++ b ++ ")") = some b
    ∧ derive_cycle_longitude ("(" ++ a ++ "," ++ b ++ ")") = some a := by
  have hdata : ("(" ++ a ++ "," ++ b ++ ")" : String).data
      = '(' :: ((a.data ++ ',' :: b.data) ++ [')']) := by
    simp only [String.data_append]
    show ((['('] ++ a.data) ++ [','] ++ b.data) ++ [')']
      = '(' :: ((a.data ++ ',' :: b.data) ++ [')'])
    simp [List.append_assoc]
  have hstrip : pyStripEnds ("(" ++ a ++ "," ++ b ++ ")" : String).data
      = a.data ++ ',' :: b.data := by
    rw [hdata]
    unfold pyStripEnds
    simp only [List.drop_succ_cons, List.drop_zero, List.dropLast_concat]
  constructor
  · unfold derive_cycle_latitude
    rw [hstrip, splitComma_append a.data b.data ha hb]
    rfl
  · unfold derive_cycle_longitude
    rw [hstrip, splitComma_append a.data b.data ha hb]
    rfl

/-- C6 witness for the amended claim, at a concrete coordinate pair. -/
theorem derive_cycle_components_witness :
    derive_cycle_latitude ("(" ++ "49.4" ++ "," ++ "1.1" ++ ")") = some "1.1"
    ∧ derive_cycle_longitude ("(" ++ "49.4" ++ "," ++ "1.1" ++ ")") = some "49.4" :=
  derive_cycle_components "49.4" "1.1" (by decide) (by decide)

/- ---------------------------------------------------------------------
   C7: namespaced identifiers never collide
--------------------------------------------------------------------- -/

/-- C7: for two feeds with distinct namespace tags, the namespaced
identifiers produced by `import_table` for equal raw identifier values in
an identifier field never collide. -/
theorem namespace_field_no_collision (t1 t2 key v : String)
    (hk : FIELD_IDS.contains key = true) (ht : t1 ≠ t2) :
    namespace_field t1 key v ≠ namespace_field t2 key v := by
  unfold namespace_field
  rw [if_pos hk, if_pos hk]
  intro h
  apply ht
  have hd := congrArg String.data h
  simp only [String.data_append] at hd
  have hc := List.append_cancel_right hd
  exact congrArg String.mk hc

/-- C7 witness: the Astuce and AtouMod tags on the same raw stop id. -/
theorem namespace_field_no_collision_witness :
    FIELD_IDS.contains "stop_id" = true
    ∧ namespace_field "AST-" "stop_id" "X001" ≠ namespace_field "ATM-" "stop_id" "X001" :=
  ⟨by decide,
   namespace_field_no_collision "AST-" "ATM-" "stop_id" "X001" (by decide) (by decide)⟩

/- ---------------------------------------------------------------------
   C8: normalize_name is idempotent
--------------------------------------------------------------------- -/

lemma pyReplaceAux_no_occ (old new : List Char) :
    ∀ (fuel : Nat) (s : List Char), containsSub old s = false →
      pyReplaceAux old new fuel s = s := by
  intro fuel
  induction fuel with
  | zero => intro s _; rfl
  | succ n ih =>
    intro s h
    cases s with
    | nil => rfl
    | cons c rest =>
      have h' : (old.isPrefixOf (c :: rest) || containsSub old rest) = false := h
      rw [Bool.or_eq_false_iff] at h'
      unfold pyReplaceAux
      rw [if_neg, ih rest h'.2]
      rintro ⟨-, hp⟩
      rw [h'.1] at hp
      cases hp

lemma pyReplace_no_occ (s old new : String)
    (h : containsSub old.data s.data = false) : pyReplace s old new = s := by
  unfold pyReplace
  rw [pyReplaceAux_no_occ old.data new.data s.data.length s.data h]

lemma foldl_replace_no_occ (corrs : List (String × String)) (y : String)
    (h : ∀ p ∈ corrs, containsSub p.1.data y.data = false) :
    corrs.foldl (fun n bg => pyReplace n bg.1 bg.2) y = y := by
  induction corrs with
  | nil => rfl
  | cons a t ih =>
    rw [List.foldl_cons, pyReplace_no_occ y a.1 a.2 (h a (List.mem_cons_self a t)),
      ih (fun p hp => h p (List.mem_cons_of_mem a hp))]

/-- C8: `normalize_name` is idempotent on any input whose normal form is
free of chained substring collisions, i.e. whenever the normalized name is
stable under title-casing and contains no correction's bad substring
(which is exactly what a chained collision would reintroduce). -/
theorem normalize_name_idempotent (corrections : List (String × String)) (name : String)
    (htitle : pyTitle (normalize_name corrections name) = normalize_name corrections name)
    (hnocc : ∀ p ∈ corrections,
      containsSub p.1.data (normalize_name corrections name).data = false) :
    normalize_name corrections (normalize_name corrections name)
      = normalize_name corrections name := by
  conv_lhs => rw [normalize_name]
  rw [htitle]
  exact foldl_replace_no_occ corrections (normalize_name corrections name) hnocc

/-- C8 witness: a concrete correction list and name. -/
theorem normalize_name_idempotent_witness :
    pyTitle (normalize_name [("Xy", "Ab")] "xy cd") = normalize_name [("Xy", "Ab")] "xy cd"
    ∧ normalize_name [("Xy", "Ab")] (normalize_name [("Xy", "Ab")] "xy cd")
        = normalize_name [("Xy", "Ab")] "xy cd" :=
  ⟨by decide,
   normalize_name_idempotent [("Xy", "Ab")] "xy cd" (by decide) (by decide)⟩

/- ---------------------------------------------------------------------
   C4: orphan sweep invariants
--------------------------------------------------------------------- -/

lemma contains_eq_true_iff {l : List String} {a : String} :
    l.contains a = true ↔ a ∈ l := by
  simp [List.contains_iff_exists_mem_beq, eq_comm]

/-- C4: after the three orphan sweeps run once each, in pipeline order
(stop_times, trips, routes), no remaining StopTime references a Stop
absent from the stops table, every remaining Trip has at least one
StopTime, and every remaining Route has at least one Trip. -/
theorem orphan_sweep_invariants (db : DB) :
    (∀ st ∈ (orphan_sweep db).stop_times,
      ∃ s ∈ (orphan_sweep db).stops, s.stop_id = st.stop_id)
    ∧ (∀ t ∈ (orphan_sweep db).trips,
      ∃ st ∈ (orphan_sweep db).stop_times, st.trip_id = t.trip_id)
    ∧ (∀ r ∈ (orphan_sweep db).routes,
      ∃ t ∈ (orphan_sweep db).trips, t.route_id = r.route_id) := by
  set db1 := remove_orphaned_stop_times db with hdb1
  set db2 := remove_orphaned_trips db1 with hdb2
  have h1st : db1.stop_times
      = db.stop_times.filter
          (fun st => !(orphaned_stop_time_ids db).contains st.stop_id) := rfl
  have h2tr : db2.trips
      = db1.trips.filter (fun t => !(orphaned_trip_ids db1).contains t.trip_id) := rfl
  have h3ro : (orphan_sweep db).routes
      = db2.routes.filter (fun r => !(orphaned_route_ids db2).contains r.route_id) := rfl
  have hsw_st : (orphan_sweep db).stop_times = db1.stop_times := rfl
  have hsw_stops : (orphan_sweep db).stops = db.stops := rfl
  have hsw_tr : (orphan_sweep db).trips = db2.trips := rfl
  refine ⟨?_, ?_, ?_⟩
  · intro st hst
    rw [hsw_st, h1st, List.mem_filter, Bool.not_eq_true'] at hst
    rw [hsw_stops]
    by_contra hno
    push_neg at hno
    have hmem : st.stop_id ∈ orphaned_stop_time_ids db := by
      unfold orphaned_stop_time_ids
      refine List.mem_map.mpr ⟨st, List.mem_filter.mpr ⟨hst.1, ?_⟩, rfl⟩
      rw [Bool.not_eq_true', List.any_eq_false]
      intro s hs
      simp only [beq_iff_eq]
      exact fun e => hno s hs e
    have hcon := contains_eq_true_iff.mpr hmem
    rw [hst.2] at hcon
    cases hcon
  · intro t ht
    rw [hsw_tr, h2tr, List.mem_filter, Bool.not_eq_true'] at ht
    rw [hsw_st]
    by_contra hno
    push_neg at hno
    have hmem : t.trip_id ∈ orphaned_trip_ids db1 := by
      unfold orphaned_trip_ids
      refine List.mem_map.mpr ⟨t, List.mem_filter.mpr ⟨ht.1, ?_⟩, rfl⟩
      rw [Bool.not_eq_true', List.any_eq_false]
      intro s hs
      simp only [beq_iff_eq]
      exact fun e => hno s hs e
    have hcon := contains_eq_true_iff.mpr hmem
    rw [ht.2] at hcon
    cases hcon
  · intro r hr
    rw [h3ro, List.mem_filter, Bool.not_eq_true'] at hr
    rw [hsw_tr]
    by_contra hno
    push_neg at hno
    have hmem : r.route_id ∈ orphaned_route_ids db2 := by
      unfold orphaned_route_ids
      refine List.mem_map.mpr ⟨r, List.mem_filter.mpr ⟨hr.1, ?_⟩, rfl⟩
      rw [Bool.not_eq_true', List.any_eq_false]
      intro s hs
      simp only [beq_iff_eq]
      exact fun e => hno s hs e
    have hcon := contains_eq_true_iff.mpr hmem
    rw [hr.2] at hcon
    cases hcon

/- ---------------------------------------------------------------------
   C10: remove_trips deletes shared stops and routes
--------------------------------------------------------------------- -/

lemma contains_eq_false_iff {l : List String} {a : String} :
    l.contains a = false ↔ a ∉ l := by
  rw [← contains_eq_true_iff]
  cases l.contains a <;> simp

lemma mem_filter_not_contains {α : Type} (l : List α) (f : α → String)
    (ids : List String) (x : α) :
    x ∈ l.filter (fun y => !ids.contains (f y)) ↔ x ∈ l ∧ f x ∉ ids := by
  rw [List.mem_filter, Bool.not_eq_true', contains_eq_false_iff]

lemma mem_remove_trips_stop_ids {db : DB} {trip_ids : List String} {x : String} :
    x ∈ remove_trips_stop_ids db trip_ids ↔
      ∃ st ∈ db.stop_times, st.trip_id ∈ trip_ids ∧ st.stop_id = x := by
  unfold remove_trips_stop_ids
  simp only [List.mem_map, List.mem_filter, contains_eq_true_iff]
  constructor
  · rintro ⟨st, ⟨h1, h2⟩, h3⟩
    exact ⟨st, h1, h2, h3⟩
  · rintro ⟨st, h1, h2, h3⟩
    exact ⟨st, ⟨h1, h2⟩, h3⟩

lemma mem_remove_trips_route_ids {db : DB} {trip_ids : List String} {x : String} :
    x ∈ remove_trips_route_ids db trip_ids ↔
      ∃ t ∈ db.trips, t.trip_id ∈ trip_ids ∧ t.route_id = x := by
  unfold remove_trips_route_ids
  simp only [List.mem_map, List.mem_filter, contains_eq_true_iff]
  constructor
  · rintro ⟨t, ⟨h1, h2⟩, h3⟩
    exact ⟨t, h1, h2, h3⟩
  · rintro ⟨t, h1, h2, h3⟩
    exact ⟨t, ⟨h1, h2⟩, h3⟩

/-- C10: for a non-empty trip-id set, `remove_trips` removes exactly the
trips of the set, every Stop served by any trip of the set, every
StopRouteCache row of such a Stop, and every Route any trip of the set
belongs to — and in particular a Stop or Route that also serves a trip
OUTSIDE the set is deleted all the same.  stop_times are left untouched. -/
theorem remove_trips_cascade (db : DB) (trip_ids : List String)
    (hne : trip_ids ≠ []) :
    (∀ t : TripRow, t ∈ (remove_trips db trip_ids).trips ↔
      t ∈ db.trips ∧ t.trip_id ∉ trip_ids)
    ∧ (∀ s : StopRow, s ∈ (remove_trips db trip_ids).stops ↔
      s ∈ db.stops ∧
        ¬∃ st ∈ db.stop_times, st.trip_id ∈ trip_ids ∧ st.stop_id = s.stop_id)
    ∧ (∀ c : CacheRow, c ∈ (remove_trips db trip_ids).cache_stop_routes ↔
      c ∈ db.cache_stop_routes ∧
        ¬∃ st ∈ db.stop_times, st.trip_id ∈ trip_ids ∧ st.stop_id = c.stop_id)
    ∧ (∀ r : RouteRow, r ∈ (remove_trips db trip_ids).routes ↔
      r ∈ db.routes ∧
        ¬∃ t ∈ db.trips, t.trip_id ∈ trip_ids ∧ t.route_id = r.route_id)
    ∧ (remove_trips db trip_ids).stop_times = db.stop_times
    ∧ (∀ s ∈ db.stops,
        (∃ st ∈ db.stop_times, st.trip_id ∈ trip_ids ∧ st.stop_id = s.stop_id) →
        (∃ st2 ∈ db.stop_times, st2.trip_id ∉ trip_ids ∧ st2.stop_id = s.stop_id) →
        s ∉ (remove_trips db trip_ids).stops)
    ∧ (∀ r ∈ db.routes,
        (∃ t ∈ db.trips, t.trip_id ∈ trip_ids ∧ t.route_id = r.route_id) →
        (∃ t2 ∈ db.trips, t2.trip_id ∉ trip_ids ∧ t2.route_id = r.route_id) →
        r ∉ (remove_trips db trip_ids).routes) := by
  have htr : (remove_trips db trip_ids).trips
      = db.trips.filter (fun t => !trip_ids.contains t.trip_id) := rfl
  have hst : (remove_trips db trip_ids).stops
      = db.stops.filter
          (fun s => !(remove_trips_stop_ids db trip_ids).contains s.stop_id) := rfl
  have hca : (remove_trips db trip_ids).cache_stop_routes
      = db.cache_stop_routes.filter
          (fun c => !(remove_trips_stop_ids db trip_ids).contains c.stop_id) := rfl
  have hro : (remove_trips db trip_ids).routes
      = db.routes.filter
          (fun r => !(remove_trips_route_ids db trip_ids).contains r.route_id) := rfl
  have htrips : ∀ t : TripRow, t ∈ (remove_trips db trip_ids).trips ↔
      t ∈ db.trips ∧ t.trip_id ∉ trip_ids := by
    intro t
    rw [htr, mem_filter_not_contains]
  have hstops : ∀ s : StopRow, s ∈ (remove_trips db trip_ids).stops ↔
      s ∈ db.stops ∧
        ¬∃ st ∈ db.stop_times, st.trip_id ∈ trip_ids ∧ st.stop_id = s.stop_id := by
    intro s
    rw [hst, mem_filter_not_contains, mem_remove_trips_stop_ids.not]
  have hcache : ∀ c : CacheRow, c ∈ (remove_trips db trip_ids).cache_stop_routes ↔
      c ∈ db.cache_stop_routes ∧
        ¬∃ st ∈ db.stop_times, st.trip_id ∈ trip_ids ∧ st.stop_id = c.stop_id := by
    intro c
    rw [hca, mem_filter_not_contains, mem_remove_trips_stop_ids.not]
  have hroutes : ∀ r : RouteRow, r ∈ (remove_trips db trip_ids).routes ↔
      r ∈ db.routes ∧
        ¬∃ t ∈ db.trips, t.trip_id ∈ trip_ids ∧ t.route_id = r.route_id := by
    intro r
    rw [hro, mem_filter_not_contains, mem_remove_trips_route_ids.not]
  refine ⟨htrips, hstops, hcache, hroutes, rfl, ?_, ?_⟩
  · intro s _ hserved _ hmem
    exact ((hstops s).mp hmem).2 hserved
  · intro r _ hserved _ hmem
    exact ((hroutes r).mp hmem).2 hserved

/-- C10 witness: a store in which stop s1 and route r1 are also used by
the surviving trip t2, yet removing the singleton set of t1 deletes both. -/
theorem remove_trips_cascade_witness :
    (⟨"s1", "S", 0, 0⟩ : StopRow) ∉
      (remove_trips
        ⟨[⟨"s1", "S", 0, 0⟩], [⟨"r1", "5", "L"⟩],
         [⟨"t1", "r1", "sv"⟩, ⟨"t2", "r1", "sv"⟩],
         [⟨"t1", "s1"⟩, ⟨"t2", "s1"⟩], [⟨"s1", "r1", false⟩]⟩ ["t1"]).stops
    ∧ (⟨"r1", "5", "L"⟩ : RouteRow) ∉
      (remove_trips
        ⟨[⟨"s1", "S", 0, 0⟩], [⟨"r1", "5", "L"⟩],
         [⟨"t1", "r1", "sv"⟩, ⟨"t2", "r1", "sv"⟩],
         [⟨"t1", "s1"⟩, ⟨"t2", "s1"⟩], [⟨"s1", "r1", false⟩]⟩ ["t1"]).routes :=
  ⟨(remove_trips_cascade
      ⟨[⟨"s1", "S", 0, 0⟩], [⟨"r1", "5", "L"⟩],
       [⟨"t1", "r1", "sv"⟩, ⟨"t2", "r1", "sv"⟩],
       [⟨"t1", "s1"⟩, ⟨"t2", "s1"⟩], [⟨"s1", "r1", false⟩]⟩ ["t1"]
      (by decide)).2.2.2.2.2.1 ⟨"s1", "S", 0, 0⟩ (by decide)
      ⟨⟨"t1", "s1"⟩, by decide, by decide, rfl⟩
      ⟨⟨"t2", "s1"⟩, by decide, by decide, rfl⟩,
   (remove_trips_cascade
      ⟨[⟨"s1", "S", 0, 0⟩], [⟨"r1", "5", "L"⟩],
       [⟨"t1", "r1", "sv"⟩, ⟨"t2", "r1", "sv"⟩],
       [⟨"t1", "s1"⟩, ⟨"t2", "s1"⟩], [⟨"s1", "r1", false⟩]⟩ ["t1"]
      (by decide)).2.2.2.2.2.2 ⟨"r1", "5", "L"⟩ (by decide)
      ⟨⟨"t1", "r1", "sv"⟩, by decide, by decide, rfl⟩
      ⟨⟨"t2", "r1", "sv"⟩, by decide, by decide, rfl⟩⟩

/- ---------------------------------------------------------------------
   C3: cross-feed duplicate-route elimination
--------------------------------------------------------------------- -/

lemma not_ast_and_atm (s : String) :
    ¬(likeStarts "AST-" s = true ∧ likeStarts "ATM-" s = true) := by
  rintro ⟨h1, h2⟩
  unfold likeStarts at h1 h2
  rw [List.isPrefixOf_iff_prefix] at h1 h2
  obtain ⟨t1, e1⟩ := h1
  obtain ⟨t2, e2⟩ := h2
  have e : (['A', 'S', 'T', '-'] : List Char) ++ t1
      = ['A', 'T', 'M', '-'] ++ t2 := e1.trans e2.symm
  simp only [List.cons_append, List.nil_append, List.cons.injEq] at e
  exact absurd e.2.1 (by decide)

lemma mem_astuce_dup_names {db : DB} {n : String} :
    n ∈ astuce_dup_names db ↔
      ∃ p ∈ db.routes, likeStarts "AST-" p.route_id = true ∧
        (n = pyReplace p.route_long_name "<>" ""
          ∨ n = pyReplace p.route_long_name "<>" "/") := by
  unfold astuce_dup_names
  simp only [List.mem_flatMap, List.mem_filter, List.mem_cons,
    List.not_mem_nil, or_false]
  constructor
  · rintro ⟨p, ⟨h1, h2⟩, h3⟩
    exact ⟨p, h1, h2, h3⟩
  · rintro ⟨p, h1, h2, h3⟩
    exact ⟨p, ⟨h1, h2⟩, h3⟩

lemma mem_atoumod_duplicate_ids {db : DB} {x : String} :
    x ∈ atoumod_duplicate_ids db ↔
      ∃ r ∈ db.routes, likeStarts "ATM-" r.route_id = true ∧ r.route_id = x ∧
        ∃ p ∈ db.routes, likeStarts "AST-" p.route_id = true ∧
          (r.route_long_name = pyReplace p.route_long_name "<>" ""
            ∨ r.route_long_name = pyReplace p.route_long_name "<>" "/") := by
  unfold atoumod_duplicate_ids
  simp only [List.mem_map, List.mem_filter, Bool.and_eq_true,
    contains_eq_true_iff, mem_astuce_dup_names]
  constructor
  · rintro ⟨r, ⟨h1, ⟨p, hp1, hp2, hp3⟩, h2⟩, h3⟩
    exact ⟨r, h1, h2, h3, p, hp1, hp2, hp3⟩
  · rintro ⟨r, h1, h2, h3, p, hp1, hp2, hp3⟩
    exact ⟨r, ⟨h1, ⟨p, hp1, hp2, hp3⟩, h2⟩, h3⟩

/-- C3: `remove_atoumod_duplicates` keeps every Astuce route; an AtouMod
route is deleted exactly when its long name matches the marker-stripped
form (yielding the double-space variant of an "A <> B" name) or the slash
form of some Astuce route's long name; the deleted routes' trips and
cache rows are deleted with them; stops are untouched.  Route identifiers
are assumed unique, as the store's primary key guarantees. -/
theorem atoumod_duplicate_elimination (db : DB)
    (huniq : (db.routes.map RouteRow.route_id).Nodup) :
    (∀ p ∈ db.routes, likeStarts "AST-" p.route_id = true →
      p ∈ (remove_atoumod_duplicates db).routes)
    ∧ (∀ r ∈ db.routes, likeStarts "ATM-" r.route_id = true →
      (r ∈ (remove_atoumod_duplicates db).routes ↔
        ¬∃ p ∈ db.routes, likeStarts "AST-" p.route_id = true ∧
          (r.route_long_name = pyReplace p.route_long_name "<>" ""
            ∨ r.route_long_name = pyReplace p.route_long_name "<>" "/")))
    ∧ (∀ t ∈ db.trips, t ∈ (remove_atoumod_duplicates db).trips ↔
        ¬∃ r ∈ db.routes, likeStarts "ATM-" r.route_id = true ∧
          r.route_id = t.route_id ∧
          ∃ p ∈ db.routes, likeStarts "AST-" p.route_id = true ∧
            (r.route_long_name = pyReplace p.route_long_name "<>" ""
              ∨ r.route_long_name = pyReplace p.route_long_name "<>" "/"))
    ∧ (∀ c ∈ db.cache_stop_routes,
        c ∈ (remove_atoumod_duplicates db).cache_stop_routes ↔
        ¬∃ r ∈ db.routes, likeStarts "ATM-" r.route_id = true ∧
          r.route_id = c.route_id ∧
          ∃ p ∈ db.routes, likeStarts "AST-" p.route_id = true ∧
            (r.route_long_name = pyReplace p.route_long_name "<>" ""
              ∨ r.route_long_name = pyReplace p.route_long_name "<>" "/"))
    ∧ (remove_atoumod_duplicates db).stops = db.stops := by
  have hro : (remove_atoumod_duplicates db).routes
      = db.routes.filter
          (fun r => !(atoumod_duplicate_ids db).contains r.route_id) := rfl
  have htr : (remove_atoumod_duplicates db).trips
      = db.trips.filter
          (fun t => !(atoumod_duplicate_ids db).contains t.route_id) := rfl
  have hca : (remove_atoumod_duplicates db).cache_stop_routes
      = db.cache_stop_routes.filter
          (fun c => !(atoumod_duplicate_ids db).contains c.route_id) := rfl
  refine ⟨?_, ?_, ?_, ?_, rfl⟩
  · intro p hp hast
    rw [hro, mem_filter_not_contains]
    refine ⟨hp, fun hmem => ?_⟩
    obtain ⟨r, -, hatm, hrid, -⟩ := mem_atoumod_duplicate_ids.mp hmem
    rw [hrid] at hatm
    exact not_ast_and_atm p.route_id ⟨hast, hatm⟩
  · intro r hr hatm
    rw [hro, mem_filter_not_contains, mem_atoumod_duplicate_ids.not]
    constructor
    · rintro ⟨-, hno⟩ ⟨p, hp1, hp2, hp3⟩
      exact hno ⟨r, hr, hatm, rfl, p, hp1, hp2, hp3⟩
    · intro hno
      refine ⟨hr, fun h => ?_⟩
      obtain ⟨r', hr', hatm', hrid', p, hp1, hp2, hp3⟩ := h
      have : r' = r := List.inj_on_of_nodup_map huniq hr' hr hrid'
      subst this
      exact hno ⟨p, hp1, hp2, hp3⟩
  · intro t ht
    rw [htr, mem_filter_not_contains, mem_atoumod_duplicate_ids.not]
    constructor
    · rintro ⟨-, hno⟩ h
      exact hno h
    · intro hno
      exact ⟨ht, hno⟩
  · intro c hc
    rw [hca, mem_filter_not_contains, mem_atoumod_duplicate_ids.not]
    constructor
    · rintro ⟨-, hno⟩ h
      exact hno h
    · intro hno
      exact ⟨hc, hno⟩

/-- C3 counterexample: with the Astuce route named "A <> B", the slash
substitution produces "A / B" (the marker replaced in place, spaces
kept), so an AtouMod route named "A/B" — the form the claim says is
deleted — SURVIVES, while one named "A / B" is deleted. -/
theorem atoumod_slash_form_not_deleted :
    (⟨"ATM-1", "f1", "A/B"⟩ : RouteRow) ∈
      (remove_atoumod_duplicates
        ⟨[], [⟨"AST-1", "F1", "A <> B"⟩, ⟨"ATM-1", "f1", "A/B"⟩],
         [], [], []⟩).routes
    ∧ (⟨"ATM-2", "f2", "A / B"⟩ : RouteRow) ∉
      (remove_atoumod_duplicates
        ⟨[], [⟨"AST-1", "F1", "A <> B"⟩, ⟨"ATM-2", "f2", "A / B"⟩],
         [], [], []⟩).routes := by
  exact ⟨by decide, by decide⟩

/-- The store used by the C3 witness: one Astuce route "A <> B", its two
derived AtouMod duplicate forms, one non-matching AtouMod route, a trip
and a cache row on a duplicate route. -/
def dbC3 : DB :=
  ⟨[],
   [⟨"AST-1", "F1", "A <> B"⟩, ⟨"ATM-1", "f1", "A  B"⟩,
    ⟨"ATM-2", "f2", "A / B"⟩, ⟨"ATM-3", "f3", "A B"⟩],
   [⟨"at1", "ATM-1", "sv"⟩, ⟨"tt1", "AST-1", "sv"⟩],
   [],
   [⟨"s", "ATM-1", false⟩, ⟨"s", "AST-1", false⟩]⟩

/-- C3 witness: on `dbC3` the Astuce route survives, both derived
duplicate forms are deleted together with their trip and cache row, and
the non-matching AtouMod route survives. -/
theorem atoumod_duplicate_elimination_witness :
    (⟨"AST-1", "F1", "A <> B"⟩ : RouteRow) ∈ (remove_atoumod_duplicates dbC3).routes
    ∧ (⟨"ATM-1", "f1", "A  B"⟩ : RouteRow) ∉ (remove_atoumod_duplicates dbC3).routes
    ∧ (⟨"ATM-2", "f2", "A / B"⟩ : RouteRow) ∉ (remove_atoumod_duplicates dbC3).routes
    ∧ (⟨"ATM-3", "f3", "A B"⟩ : RouteRow) ∈ (remove_atoumod_duplicates dbC3).routes
    ∧ (⟨"at1", "ATM-1", "sv"⟩ : TripRow) ∉ (remove_atoumod_duplicates dbC3).trips
    ∧ (⟨"s", "ATM-1", false⟩ : CacheRow) ∉
        (remove_atoumod_duplicates dbC3).cache_stop_routes :=
  ⟨(atoumod_duplicate_elimination dbC3 (by decide)).1 _ (by decide) (by decide),
   fun hmem =>
     ((atoumod_duplicate_elimination dbC3 (by decide)).2.1 _ (by decide)
        (by decide)).mp hmem (by decide),
   fun hmem =>
     ((atoumod_duplicate_elimination dbC3 (by decide)).2.1 _ (by decide)
        (by decide)).mp hmem (by decide),
   ((atoumod_duplicate_elimination dbC3 (by decide)).2.1 _ (by decide)
        (by decide)).mpr (by decide),
   fun hmem =>
     ((atoumod_duplicate_elimination dbC3 (by decide)).2.2.1 _ (by decide)).mp
        hmem (by decide),
   fun hmem =>
     ((atoumod_duplicate_elimination dbC3 (by decide)).2.2.2.1 _ (by decide)).mp
        hmem (by decide)⟩

/- ---------------------------------------------------------------------
   C2: query-time route dedup is global, not scoped per name-group
--------------------------------------------------------------------- -/

lemma prepare_step_used_mono (st : PrepState) (row : StationRow)
    (q : String × Bool) (h : q ∈ st.used) : q ∈ (prepare_step st row).used := by
  unfold prepare_step
  by_cases h1 : (row.route_short_name, row.school) ∈ st.used
  · rw [if_pos h1]; exact h
  · rw [if_neg h1]
    by_cases h2 : row.school = true ∧ (row.route_short_name, false) ∈ st.used
    · rw [if_pos h2]; exact h
    · rw [if_neg h2]
      show q ∈ st.used ++ [(row.route_short_name, row.school)]
      exact List.mem_append_left _ h

lemma foldl_prepare_used_mono (rows : List StationRow) (st : PrepState)
    (q : String × Bool) (h : q ∈ st.used) :
    q ∈ (rows.foldl prepare_step st).used := by
  induction rows generalizing st with
  | nil => exact h
  | cons a t ih => exact ih (prepare_step st a) (prepare_step_used_mono st a q h)

lemma prepare_step_marks (st : PrepState) (row : StationRow) :
    (row.route_short_name, row.school) ∈ (prepare_step st row).used
    ∨ (row.route_short_name, false) ∈ (prepare_step st row).used := by
  unfold prepare_step
  by_cases h1 : (row.route_short_name, row.school) ∈ st.used
  · rw [if_pos h1]; exact Or.inl h1
  · rw [if_neg h1]
    by_cases h2 : row.school = true ∧ (row.route_short_name, false) ∈ st.used
    · rw [if_pos h2]; exact Or.inr h2.2
    · rw [if_neg h2]
      left
      show (row.route_short_name, row.school)
          ∈ st.used ++ [(row.route_short_name, row.school)]
      exact List.mem_append_right _ (List.mem_singleton.mpr rfl)

lemma foldl_prepare_marks (rows : List StationRow) (st : PrepState)
    (r : StationRow) (h : r ∈ rows) :
    (r.route_short_name, r.school) ∈ (rows.foldl prepare_step st).used
    ∨ (r.route_short_name, false) ∈ (rows.foldl prepare_step st).used := by
  induction rows generalizing st with
  | nil => cases h
  | cons a t ih =>
    rcases List.mem_cons.mp h with rfl | hmem
    · rcases prepare_step_marks st r with hm | hm
      · exact Or.inl (foldl_prepare_used_mono t _ _ hm)
      · exact Or.inr (foldl_prepare_used_mono t _ _ hm)
    · exact ih (prepare_step st a) hmem

lemma prepare_step_skip (st : PrepState) (row : StationRow)
    (h : (row.route_short_name, row.school) ∈ st.used
      ∨ (row.route_short_name, false) ∈ st.used) :
    prepare_step st row = st := by
  unfold prepare_step
  by_cases h1 : (row.route_short_name, row.school) ∈ st.used
  · rw [if_pos h1]
  · rw [if_neg h1]
    have h2 : row.school = true ∧ (row.route_short_name, false) ∈ st.used := by
      rcases h with h | h
      · exact absurd h h1
      · by_cases hs : row.school = true
        · exact ⟨hs, h⟩
        · rw [Bool.not_eq_true] at hs
          rw [← hs] at h
          exact absurd h h1
    rw [if_pos h2]

/-- C2 counterexample: candidate rows in DIFFERENT name-groups
("StopA", "StopB") sharing the same route short name: with the same
school flag (first pair of conjuncts) and likewise with a regular row
followed by a school row of the same short name (second pair), the
"StopB" group receives no entry at all — neither the pair dedup nor the
regular-suppresses-school rule is scoped to the name-group. -/
theorem prepare_stations_dedup_not_per_group :
    (prepare_stations
        [⟨"AST-S1", "StopA", "5", "LineFive", false, 10⟩,
         ⟨"AST-S2", "StopB", "5", "LineFive", false, 20⟩]).lookup "StopB" = none
    ∧ (prepare_stations
        [⟨"AST-S1", "StopA", "5", "LineFive", false, 10⟩,
         ⟨"AST-S2", "StopB", "5", "LineFive", false, 20⟩]).lookup "StopA" ≠ none
    ∧ (prepare_stations
        [⟨"AST-S1", "StopA", "5", "LineFive", false, 10⟩,
         ⟨"AST-S2", "StopB", "5", "LineFive", true, 20⟩]).lookup "StopB" = none
    ∧ (prepare_stations
        [⟨"AST-S1", "StopA", "5", "LineFive", false, 10⟩,
         ⟨"AST-S2", "StopB", "5", "LineFive", true, 20⟩]).lookup "StopA" ≠ none := by
  exact ⟨by decide, by decide, by decide, by decide⟩

/-- C2 amended: deduplication by (routeShortName, isSchoolService) is
GLOBAL across the whole result: a candidate row whose pair was already
recorded by any earlier row — or, for a school row, whose regular
variant of the same short name was — even one in a different stop-name
group, is dropped, leaving the result exactly as if the row were
absent. -/
theorem prepare_stations_dedup_global (pre post : List StationRow)
    (r r' : StationRow) (h1 : r' ∈ pre)
    (h2 : r'.route_short_name = r.route_short_name)
    (h3 : r'.school = r.school ∨ (r'.school = false ∧ r.school = true)) :
    prepare_stations (pre ++ r :: post) = prepare_stations (pre ++ post) := by
  unfold prepare_stations
  rw [List.foldl_append, List.foldl_append, List.foldl_cons]
  have hmark := foldl_prepare_marks pre ⟨[], []⟩ r' h1
  rw [h2] at hmark
  rcases h3 with h3 | ⟨h3f, -⟩
  · rw [h3] at hmark
    rw [prepare_step_skip _ r hmark]
  · rw [h3f] at hmark
    rw [prepare_step_skip _ r (Or.inr (hmark.elim id id))]

/-- C2 witness for the amended claim: dropping the duplicate row from a
different name-group — once with the same flag, once a school row
suppressed by its earlier regular variant — leaves the result
unchanged. -/
theorem prepare_stations_dedup_global_witness :
    prepare_stations
        [⟨"AST-S1", "StopA", "5", "LineFive", false, 10⟩,
         ⟨"AST-S2", "StopB", "5", "LineFive", false, 20⟩]
      = prepare_stations [⟨"AST-S1", "StopA", "5", "LineFive", false, 10⟩]
    ∧ prepare_stations
        [⟨"AST-S1", "StopA", "5", "LineFive", false, 10⟩,
         ⟨"AST-S2", "StopB", "5", "LineFive", true, 20⟩]
      = prepare_stations [⟨"AST-S1", "StopA", "5", "LineFive", false, 10⟩] :=
  ⟨prepare_stations_dedup_global
     [⟨"AST-S1", "StopA", "5", "LineFive", false, 10⟩] []
     ⟨"AST-S2", "StopB", "5", "LineFive", false, 20⟩
     ⟨"AST-S1", "StopA", "5", "LineFive", false, 10⟩
     (List.mem_singleton.mpr rfl) rfl (Or.inl rfl),
   prepare_stations_dedup_global
     [⟨"AST-S1", "StopA", "5", "LineFive", false, 10⟩] []
     ⟨"AST-S2", "StopB", "5", "LineFive", true, 20⟩
     ⟨"AST-S1", "StopA", "5", "LineFive", false, 10⟩
     (List.mem_singleton.mpr rfl) rfl (Or.inr ⟨rfl, rfl⟩)⟩

/- ---------------------------------------------------------------------
   C9: direction classification
--------------------------------------------------------------------- -/

lemma EARTH_DIAMETER_pos : (0 : ℝ) < EARTH_DIAMETER := by
  unfold EARTH_DIAMETER; norm_num

lemma sin_angle_eq : sin_angle = Real.sin (Real.pi / 8) := by
  unfold sin_angle radiansR
  congr 1
  ring

lemma sin_angle_pos : 0 < sin_angle := by
  rw [sin_angle_eq]
  apply Real.sin_pos_of_pos_of_lt_pi
  · positivity
  · nlinarith [Real.pi_pos]

lemma sin_angle_lt_pi_div_eight : sin_angle < Real.pi / 8 := by
  rw [sin_angle_eq]
  exact Real.sin_lt (by positivity)

lemma sin_angle_le_one : sin_angle ≤ 1 := by
  rw [sin_angle_eq]
  exact Real.sin_le_one _

lemma arcsin_le_pi_div_two_mul {y : ℝ} (h0 : 0 ≤ y) (h1 : y ≤ 1) :
    Real.arcsin y ≤ Real.pi / 2 * y := by
  have ht0 : 0 ≤ Real.arcsin y := Real.arcsin_nonneg.mpr h0
  have ht1 : Real.arcsin y ≤ Real.pi / 2 := Real.arcsin_le_pi_div_two y
  have hj := Real.mul_le_sin ht0 ht1
  rw [Real.sin_arcsin (by linarith) h1] at hj
  have hpi := Real.pi_pos
  have hmul := mul_le_mul_of_nonneg_left hj (le_of_lt (half_pos hpi))
  calc Real.arcsin y = Real.pi / 2 * (2 / Real.pi * Real.arcsin y) := by
        field_simp
        ring
    _ ≤ Real.pi / 2 * y := hmul

lemma le_arcsin_of_nonneg {x : ℝ} (h0 : 0 ≤ x) (h1 : x ≤ 1) :
    x ≤ Real.arcsin x := by
  have hx2 : x ≤ Real.pi / 2 := le_trans h1 (by linarith [Real.two_le_pi])
  have hmem1 : x ∈ Set.Icc (-(Real.pi / 2)) (Real.pi / 2) :=
    ⟨by linarith [Real.pi_pos], hx2⟩
  have hmem2 : x ∈ Set.Icc (-1 : ℝ) 1 := ⟨by linarith, h1⟩
  rw [Real.le_arcsin_iff_sin_le hmem1 hmem2]
  calc Real.sin x ≤ |Real.sin x| := le_abs_self _
    _ ≤ |x| := Real.abs_sin_le_abs
    _ = x := abs_of_nonneg h0

lemma abs_le_abs_arcsin_nonneg {x : ℝ} (h0 : 0 ≤ x)
    (h : |Real.arcsin x| < Real.pi / 2) : |x| ≤ |Real.arcsin x| := by
  have harc : 0 ≤ Real.arcsin x := Real.arcsin_nonneg.mpr h0
  rw [abs_of_nonneg h0, abs_of_nonneg harc]
  rcases le_or_lt x 1 with hx1 | hx1
  · exact le_arcsin_of_nonneg h0 hx1
  · exfalso
    have he : Real.arcsin x = Real.pi / 2 := Real.arcsin_of_one_le (le_of_lt hx1)
    rw [abs_of_nonneg harc, he] at h
    exact lt_irrefl _ h

lemma abs_le_abs_arcsin {x : ℝ} (h : |Real.arcsin x| < Real.pi / 2) :
    |x| ≤ |Real.arcsin x| := by
  rcases le_or_lt 0 x with hx | hx
  · exact abs_le_abs_arcsin_nonneg hx h
  · have h' : |Real.arcsin (-x)| < Real.pi / 2 := by
      rw [Real.arcsin_neg, abs_neg]
      exact h
    have := abs_le_abs_arcsin_nonneg (by linarith : (0:ℝ) ≤ -x) h'
    rw [abs_neg, Real.arcsin_neg, abs_neg] at this
    exact this

set_option maxHeartbeats 1600000 in
/-- At distance at least 5 m both normalized angle components cannot sit
inside the dead band: some compass letter is always emitted. -/
lemma direction_label_bands (l1 o1 l2 o2 : ℝ)
    (hd : 5 ≤ gps_distance l1 o1 l2 o2)
    (hlat : |lat_angle l1 o1 l2 o2| ≤ sin_angle)
    (hlon : |lon_angle l1 o1 l2 o2| ≤ sin_angle) : False := by
  have hDpos := EARTH_DIAMETER_pos
  obtain ⟨hav, hhav⟩ : ∃ h : ℝ, h = Real.sin ((l2 - l1) / 2) ^ 2 +
      Real.cos l1 * Real.cos l2 * Real.sin ((o2 - o1) / 2) ^ 2 := ⟨_, rfl⟩
  obtain ⟨A, hA⟩ : ∃ a : ℝ, a = Real.arcsin (Real.sqrt hav) := ⟨_, rfl⟩
  have hgd : gps_distance l1 o1 l2 o2 = EARTH_DIAMETER * A := by
    rw [hA, hhav]
    rfl
  have hA_nonneg : 0 ≤ A := by
    rw [hA]
    exact Real.arcsin_nonneg.mpr (Real.sqrt_nonneg _)
  have hA_le : A ≤ Real.pi / 2 := by
    rw [hA]
    exact Real.arcsin_le_pi_div_two _
  rw [hgd] at hd
  have hA_pos : 0 < A := by
    by_contra hc
    push_neg at hc
    have : EARTH_DIAMETER * A ≤ 0 :=
      mul_nonpos_of_nonneg_of_nonpos (le_of_lt hDpos) hc
    linarith
  have hAne : A ≠ 0 := ne_of_gt hA_pos
  have hDne : (EARTH_DIAMETER : ℝ) ≠ 0 := ne_of_gt hDpos
  have hsimp : ∀ x : ℝ, x * EARTH_DIAMETER / (EARTH_DIAMETER * A) = x / A := by
    intro x
    field_simp
    ring
  have hla : lat_angle l1 o1 l2 o2 = Real.arcsin (l2 - l1) / A := by
    unfold lat_angle
    rw [hgd, hsimp]
  have hlo : lon_angle l1 o1 l2 o2 = Real.arcsin (o2 - o1) / A := by
    unfold lon_angle
    rw [hgd, hsimp]
  have htlat : |Real.arcsin (l2 - l1)| ≤ sin_angle * A := by
    rw [hla, abs_div, abs_of_pos hA_pos] at hlat
    exact (div_le_iff₀ hA_pos).mp hlat
  have htlon : |Real.arcsin (o2 - o1)| ≤ sin_angle * A := by
    rw [hlo, abs_div, abs_of_pos hA_pos] at hlon
    exact (div_le_iff₀ hA_pos).mp hlon
  have hsA_nonneg : 0 ≤ sin_angle * A :=
    mul_nonneg (le_of_lt sin_angle_pos) hA_nonneg
  have hsA_lt : sin_angle * A < Real.pi / 2 := by
    nlinarith [sin_angle_lt_pi_div_eight, sin_angle_pos, hA_le, hA_nonneg,
      Real.pi_pos, Real.pi_lt_four]
  have hsA_le_one : sin_angle * A ≤ 1 := by
    nlinarith [sin_angle_lt_pi_div_eight, sin_angle_pos, hA_le, hA_nonneg,
      Real.pi_pos, Real.pi_le_four]
  have hlat_small : |l2 - l1| ≤ sin_angle * A :=
    le_trans (abs_le_abs_arcsin (lt_of_le_of_lt htlat hsA_lt)) htlat
  have hlon_small : |o2 - o1| ≤ sin_angle * A :=
    le_trans (abs_le_abs_arcsin (lt_of_le_of_lt htlon hsA_lt)) htlon
  have hs1 : Real.sin ((l2 - l1) / 2) ^ 2 ≤ ((l2 - l1) / 2) ^ 2 :=
    Real.sin_sq_le_sq
  have hs2 : Real.sin ((o2 - o1) / 2) ^ 2 ≤ ((o2 - o1) / 2) ^ 2 :=
    Real.sin_sq_le_sq
  have hcabs : |Real.cos l1 * Real.cos l2| ≤ 1 := by
    rw [abs_mul]
    exact mul_le_one₀ (Real.abs_cos_le_one l1) (abs_nonneg _) (Real.abs_cos_le_one l2)
  have hcterm : Real.cos l1 * Real.cos l2 * Real.sin ((o2 - o1) / 2) ^ 2
      ≤ Real.sin ((o2 - o1) / 2) ^ 2 := by
    have h1 := mul_le_mul_of_nonneg_right (le_abs_self (Real.cos l1 * Real.cos l2))
      (sq_nonneg (Real.sin ((o2 - o1) / 2)))
    have h2 := mul_le_mul_of_nonneg_right hcabs
      (sq_nonneg (Real.sin ((o2 - o1) / 2)))
    calc Real.cos l1 * Real.cos l2 * Real.sin ((o2 - o1) / 2) ^ 2
        ≤ |Real.cos l1 * Real.cos l2| * Real.sin ((o2 - o1) / 2) ^ 2 := h1
      _ ≤ 1 * Real.sin ((o2 - o1) / 2) ^ 2 := h2
      _ = Real.sin ((o2 - o1) / 2) ^ 2 := one_mul _
  have hlat2 : (l2 - l1) ^ 2 ≤ (sin_angle * A) ^ 2 := by
    have hb := abs_le.mp hlat_small
    nlinarith [hb.1, hb.2]
  have hlon2 : (o2 - o1) ^ 2 ≤ (sin_angle * A) ^ 2 := by
    have hb := abs_le.mp hlon_small
    nlinarith [hb.1, hb.2]
  have q1 : ((l2 - l1) / 2) ^ 2 = (l2 - l1) ^ 2 / 4 := by ring
  have q2 : ((o2 - o1) / 2) ^ 2 = (o2 - o1) ^ 2 / 4 := by ring
  have hhav_le : hav ≤ (sin_angle * A) ^ 2 := by
    rw [hhav]
    linarith [hs1, hs2, hcterm, hlat2, hlon2, sq_nonneg (sin_angle * A), q1, q2]
  have hsqrt_le : Real.sqrt hav ≤ sin_angle * A := by
    calc Real.sqrt hav ≤ Real.sqrt ((sin_angle * A) ^ 2) :=
          Real.sqrt_le_sqrt hhav_le
      _ = sin_angle * A := Real.sqrt_sq hsA_nonneg
  have hA_le2 : A ≤ Real.pi / 2 * (sin_angle * A) := by
    calc A = Real.arcsin (Real.sqrt hav) := hA
      _ ≤ Real.arcsin (sin_angle * A) := Real.monotone_arcsin hsqrt_le
      _ ≤ Real.pi / 2 * (sin_angle * A) :=
          arcsin_le_pi_div_two_mul hsA_nonneg hsA_le_one
  have hk : Real.pi / 2 * sin_angle < 1 := by
    nlinarith [sin_angle_lt_pi_div_eight, sin_angle_pos, Real.pi_pos,
      Real.pi_lt_four]
  nlinarith [hA_le2, hk, hA_pos]

lemma direction_label_ne_empty (l1 o1 l2 o2 : ℝ)
    (hd : 5 ≤ gps_distance l1 o1 l2 o2) :
    direction_label l1 o1 l2 o2 ≠ "" := by
  intro hempty
  unfold direction_label at hempty
  by_cases cA : lat_angle l1 o1 l2 o2 > 0 ∧ lat_angle l1 o1 l2 o2 > sin_angle
  · rw [if_pos cA] at hempty
    by_cases cC : lon_angle l1 o1 l2 o2 > 0 ∧ lon_angle l1 o1 l2 o2 > sin_angle
    · rw [if_pos cC] at hempty; exact absurd hempty (by decide)
    · rw [if_neg cC] at hempty
      by_cases cD : lon_angle l1 o1 l2 o2 < 0 ∧ lon_angle l1 o1 l2 o2 < -sin_angle
      · rw [if_pos cD] at hempty; exact absurd hempty (by decide)
      · rw [if_neg cD] at hempty; exact absurd hempty (by decide)
  · rw [if_neg cA] at hempty
    by_cases cB : lat_angle l1 o1 l2 o2 < 0 ∧ lat_angle l1 o1 l2 o2 < -sin_angle
    · rw [if_pos cB] at hempty
      by_cases cC : lon_angle l1 o1 l2 o2 > 0 ∧ lon_angle l1 o1 l2 o2 > sin_angle
      · rw [if_pos cC] at hempty; exact absurd hempty (by decide)
      · rw [if_neg cC] at hempty
        by_cases cD : lon_angle l1 o1 l2 o2 < 0 ∧ lon_angle l1 o1 l2 o2 < -sin_angle
        · rw [if_pos cD] at hempty; exact absurd hempty (by decide)
        · rw [if_neg cD] at hempty; exact absurd hempty (by decide)
    · rw [if_neg cB] at hempty
      by_cases cC : lon_angle l1 o1 l2 o2 > 0 ∧ lon_angle l1 o1 l2 o2 > sin_angle
      · rw [if_pos cC] at hempty; exact absurd hempty (by decide)
      · rw [if_neg cC] at hempty
        by_cases cD : lon_angle l1 o1 l2 o2 < 0 ∧ lon_angle l1 o1 l2 o2 < -sin_angle
        · rw [if_pos cD] at hempty; exact absurd hempty (by decide)
        · -- every letter suppressed: both components in the dead band
          push_neg at cA cB cC cD
          have hs := sin_angle_pos
          have hlat : |lat_angle l1 o1 l2 o2| ≤ sin_angle := by
            rw [abs_le]
            constructor
            · rcases lt_or_le (lat_angle l1 o1 l2 o2) 0 with h | h
              · exact cB h
              · linarith
            · rcases lt_or_le 0 (lat_angle l1 o1 l2 o2) with h | h
              · exact cA h
              · linarith
          have hlon : |lon_angle l1 o1 l2 o2| ≤ sin_angle := by
            rw [abs_le]
            constructor
            · rcases lt_or_le (lon_angle l1 o1 l2 o2) 0 with h | h
              · exact cD h
              · linarith
            · rcases lt_or_le 0 (lon_angle l1 o1 l2 o2) with h | h
              · exact cC h
              · linarith
          exact direction_label_bands l1 o1 l2 o2 hd hlat hlon

lemma mem_nine_labels (a b : String)
    (ha : a = "N" ∨ a = "S" ∨ a = "")
    (hb : b = "E" ∨ b = "W" ∨ b = "") :
    a ++ b ∈ (["", "N", "S", "E", "W", "NE", "NW", "SE", "SW"] : List String) := by
  rcases ha with rfl | rfl | rfl <;> rcases hb with rfl | rfl | rfl <;> decide

lemma direction_label_mem (l1 o1 l2 o2 : ℝ) :
    direction_label l1 o1 l2 o2
      ∈ (["", "N", "S", "E", "W", "NE", "NW", "SE", "SW"] : List String) := by
  unfold direction_label
  apply mem_nine_labels
  · by_cases c1 : lat_angle l1 o1 l2 o2 > 0 ∧ lat_angle l1 o1 l2 o2 > sin_angle
    · rw [if_pos c1]; exact Or.inl rfl
    · rw [if_neg c1]
      by_cases c2 : lat_angle l1 o1 l2 o2 < 0 ∧ lat_angle l1 o1 l2 o2 < -sin_angle
      · rw [if_pos c2]; exact Or.inr (Or.inl rfl)
      · rw [if_neg c2]; exact Or.inr (Or.inr rfl)
  · by_cases c1 : lon_angle l1 o1 l2 o2 > 0 ∧ lon_angle l1 o1 l2 o2 > sin_angle
    · rw [if_pos c1]; exact Or.inl rfl
    · rw [if_neg c1]
      by_cases c2 : lon_angle l1 o1 l2 o2 < 0 ∧ lon_angle l1 o1 l2 o2 < -sin_angle
      · rw [if_pos c2]; exact Or.inr (Or.inl rfl)
      · rw [if_neg c2]; exact Or.inr (Or.inr rfl)

lemma direction_label_north (l1 o1 l2 o2 : ℝ) (ho : o1 = o2)
    (hpos : 0 < l2 - l1) (hle : l2 - l1 ≤ 1)
    (h5 : 5 ≤ gps_distance l1 o1 l2 o2) :
    direction_label l1 o1 l2 o2 = "N" := by
  have hDpos := EARTH_DIAMETER_pos
  have hΔo : o2 - o1 = 0 := by rw [ho, sub_self]
  have hsin0 : Real.sin ((o2 - o1) / 2) = 0 := by
    rw [hΔo]
    norm_num
  have hhalf_pos : 0 < (l2 - l1) / 2 := by linarith
  have hhalf_le : (l2 - l1) / 2 ≤ Real.pi / 2 := by
    linarith [Real.two_le_pi]
  have hsin_nonneg : 0 ≤ Real.sin ((l2 - l1) / 2) :=
    le_of_lt (Real.sin_pos_of_pos_of_lt_pi hhalf_pos
      (by nlinarith [Real.pi_gt_three]))
  have hgd : gps_distance l1 o1 l2 o2 = EARTH_DIAMETER * ((l2 - l1) / 2) := by
    unfold gps_distance
    rw [hsin0]
    rw [show (0 : ℝ) ^ 2 = 0 by norm_num, mul_zero, add_zero]
    rw [Real.sqrt_sq hsin_nonneg]
    rw [Real.arcsin_sin (by linarith [Real.pi_pos]) hhalf_le]
  have hden_pos : 0 < EARTH_DIAMETER * ((l2 - l1) / 2) :=
    mul_pos hDpos hhalf_pos
  have harc_ge : l2 - l1 ≤ Real.arcsin (l2 - l1) :=
    le_arcsin_of_nonneg (le_of_lt hpos) hle
  have hla_ge : 2 ≤ lat_angle l1 o1 l2 o2 := by
    unfold lat_angle
    rw [hgd, le_div_iff₀ hden_pos]
    nlinarith [harc_ge, hDpos]
  have hlo_eq : lon_angle l1 o1 l2 o2 = 0 := by
    unfold lon_angle
    rw [hΔo, Real.arcsin_zero, zero_mul, zero_div]
  have hs_le := sin_angle_le_one
  unfold direction_label
  rw [if_pos ⟨by linarith, by linarith⟩]
  rw [hlo_eq]
  rw [if_neg (by rintro ⟨h, -⟩; exact lt_irrefl _ h)]
  rw [if_neg (by rintro ⟨h, -⟩; exact lt_irrefl _ h)]
  decide

/-- C9: the compass label of `compare_positions` is empty exactly when
the two points are closer than 5 m; the label always is one of the eight
compass octants (latitude letter first) or the empty 'here' label; and a
point exactly north (equal longitudes, small positive latitude offset) at
distance at least 5 m is labeled "N". -/
theorem compare_positions_spec (lat1 lon1 lat2 lon2 : ℝ) :
    ((compare_positions lat1 lon1 lat2 lon2).2 = "" ↔
      gps_distance (radiansR lat1) (radiansR lon1) (radiansR lat2) (radiansR lon2) < 5)
    ∧ (compare_positions lat1 lon1 lat2 lon2).2
        ∈ (["", "N", "S", "E", "W", "NE", "NW", "SE", "SW"] : List String)
    ∧ (lon1 = lon2 → 0 < radiansR lat2 - radiansR lat1 →
        radiansR lat2 - radiansR lat1 ≤ 1 →
        5 ≤ gps_distance (radiansR lat1) (radiansR lon1) (radiansR lat2) (radiansR lon2) →
        (compare_positions lat1 lon1 lat2 lon2).2 = "N") := by
  have hcp : compare_positions lat1 lon1 lat2 lon2
      = if gps_distance (radiansR lat1) (radiansR lon1) (radiansR lat2)
            (radiansR lon2) < 5 then
          (pyIntR (gps_distance (radiansR lat1) (radiansR lon1) (radiansR lat2)
            (radiansR lon2)), "")
        else
          (pyIntR (gps_distance (radiansR lat1) (radiansR lon1) (radiansR lat2)
            (radiansR lon2)),
           direction_label (radiansR lat1) (radiansR lon1) (radiansR lat2)
            (radiansR lon2)) := rfl
  by_cases hlt : gps_distance (radiansR lat1) (radiansR lon1) (radiansR lat2)
      (radiansR lon2) < 5
  · rw [hcp, if_pos hlt]
    refine ⟨iff_of_true rfl hlt,
      (by decide : ("" : String) ∈
        (["", "N", "S", "E", "W", "NE", "NW", "SE", "SW"] : List String)), ?_⟩
    intro _ _ _ h5
    linarith
  · rw [hcp, if_neg hlt]
    push_neg at hlt
    refine ⟨iff_of_false (direction_label_ne_empty _ _ _ _ hlt) (not_lt.mpr hlt), ?_, ?_⟩
    · exact direction_label_mem _ _ _ _
    · intro ho hpos hle h5
      apply direction_label_north _ _ _ _ ?_ hpos hle h5
      rw [ho]

/-- C9 witness: two points on the same meridian, 1/1000 degree of
latitude apart (about 111 m), are labeled "N". -/
theorem compare_positions_spec_witness :
    (compare_positions 0 0 (1 / 1000) 0).2 = "N" := by
  have e0 : radiansR 0 = 0 := by
    unfold radiansR
    ring
  have e1 : radiansR (1 / 1000 : ℝ) = Real.pi / 180000 := by
    unfold radiansR
    ring
  have h5' : 5 ≤ gps_distance 0 0 (Real.pi / 180000) 0 := by
    have hx_pos : 0 < Real.pi / 360000 := by positivity
    have hx_lt : Real.pi / 360000 < Real.pi := by nlinarith [Real.pi_pos]
    have hsin_nonneg : 0 ≤ Real.sin (Real.pi / 360000) :=
      le_of_lt (Real.sin_pos_of_pos_of_lt_pi hx_pos hx_lt)
    have harg : (Real.pi / 180000 - 0) / 2 = Real.pi / 360000 := by ring
    have harg2 : ((0 : ℝ) - 0) / 2 = 0 := by ring
    unfold gps_distance
    rw [harg, harg2, Real.sin_zero]
    rw [show (0 : ℝ) ^ 2 = 0 by norm_num, mul_zero, add_zero]
    rw [Real.sqrt_sq hsin_nonneg]
    rw [Real.arcsin_sin (by linarith [Real.pi_pos]) (by nlinarith [Real.pi_pos])]
    unfold EARTH_DIAMETER
    nlinarith [Real.pi_gt_three]
  refine (compare_positions_spec 0 0 (1 / 1000) 0).2.2 rfl ?_ ?_ ?_
  · rw [e1, e0, sub_zero]
    positivity
  · rw [e1, e0, sub_zero]
    nlinarith [Real.pi_le_four, Real.pi_pos]
  · rw [e1, e0]
    exact h5'
